import Mathlib

/-!
Verification of the dj-indexer query/filter construction and
path-conversion layer.

Conventions of the shallow embedding:
* Python / SQL strings are modeled as `List Char`; nullable columns and
  optional arguments as `Option (List Char)`.
* SQLite `REAL` values (bpm, duration) are modeled as `Rat`; `INTEGER`
  columns as `Int`.
* SQL three-valued logic is collapsed to `Bool` at the level of each
  atomic condition: a comparison against `NULL` yields `NULL` in SQL,
  which a `WHERE` clause treats exactly like `FALSE`, so each atomic
  condition maps `NULL` operands to `false`.
* SQLite's `LIKE` is case-insensitive for ASCII only, matching Lean's
  `Char.toLower`, which also lowers ASCII only.
* The Python dict of volume mappings is modeled as an association list
  (`List (List Char × List Char)`); Python dict iteration order is the
  list order, an absent dict is the empty list.
-/

/-- `Char.toLower` applied pointwise: model of SQLite's ASCII-only case
folding used by `LIKE`. -/
def lowerL (l : List Char) : List Char := l.map Char.toLower

/-- SQLite `LIKE` pattern matching (`value LIKE pattern`): `%` matches any
(possibly empty) sequence, `_` any single character, other characters
match case-insensitively (ASCII folding). First argument is the pattern,
second the value. -/
def likeMatch : List Char → List Char → Bool
  | [], s => s.isEmpty
  | c :: ps, s =>
    if c = '%' then s.tails.any (fun t => likeMatch ps t)
    else
      match s with
      | [] => false
      | d :: s' => (if c = '_' then true else c.toLower == d.toLower) && likeMatch ps s'

/-- Semantics of `field LIKE '%' || q || '%'` on a nullable column: the
query builder wraps the argument as `f"%{args.query}%"`; a `NULL` field
compares to `NULL`, which the `WHERE` clause rejects. -/
def likeContains (field : Option (List Char)) (q : List Char) : Bool :=
  match field with
  | none => false
  | some s => likeMatch ('%' :: q ++ ['%']) s

/-- The `REGEXP` SQL function registered in `search_tracks`:
`lambda pat, val: bool(re.search(pat, val, re.IGNORECASE)) if val else False`.
`R` is the oracle for `re.search` on non-empty values; the truthiness
check on `val` happens before `re.search` is ever called, so a `NULL` or
empty value yields `false` for every pattern. -/
def REGEXP (R : List Char → List Char → Bool) (pat : List Char)
    (val : Option (List Char)) : Bool :=
  match val with
  | none => false
  | some v => if v = [] then false else R pat v

/-- SQL `=` on a nullable text column (`file_format = ?`): `NULL` never
matches; otherwise exact, case-sensitive comparison. -/
def sqlEqText (field : Option (List Char)) (s : List Char) : Bool :=
  match field with
  | none => false
  | some v => v == s

/-- SQL `bpm >= ?` on the nullable REAL column: `NULL` excludes the row. -/
def bpmGe (bpm : Option Rat) (m : Rat) : Bool :=
  match bpm with
  | none => false
  | some x => m ≤ x

/-- SQL `bpm <= ?` on the nullable REAL column: `NULL` excludes the row. -/
def bpmLe (bpm : Option Rat) (m : Rat) : Bool :=
  match bpm with
  | none => false
  | some x => x ≤ m

/-- One row of the `tracks` table, restricted to the columns read by the
`WHERE` clause that `_build_search_query` assembles. -/
structure Track where
  title : Option (List Char)
  artist : Option (List Char)
  album : Option (List Char)
  filename : Option (List Char)
  genre : Option (List Char)
  remixer : Option (List Char)
  label : Option (List Char)
  comments : Option (List Char)
  musical_key : Option (List Char)
  source_label : Option (List Char)
  file_format : Option (List Char)
  bpm : Option Rat
  in_rekordbox : Int
deriving DecidableEq

/-- The search arguments consumed by `_build_search_query`
(`argparse.Namespace` fields of the `search` sub-command). String
arguments default to `None`; `argparse` can also deliver the empty
string, which Python truthiness treats like an absent filter. -/
structure SearchArgs where
  query : Option (List Char)
  regex : Bool
  re : Bool
  artist : Option (List Char)
  title : Option (List Char)
  filename : Option (List Char)
  genre : Option (List Char)
  key : Option (List Char)
  source : Option (List Char)
  format : Option (List Char)
  bpm_min : Option Rat
  bpm_max : Option Rat
  in_rekordbox : Bool
  not_in_rekordbox : Bool
  limit : Nat
deriving DecidableEq

/-- The free-text disjunction over the eight searched columns, in regex
mode: `REGEXP(?, title) OR ... OR REGEXP(?, comments)`. -/
def freeTextRegex (R : List Char → List Char → Bool) (q : List Char) (t : Track) : Bool :=
  REGEXP R q t.title || REGEXP R q t.artist || REGEXP R q t.album ||
  REGEXP R q t.filename || REGEXP R q t.genre || REGEXP R q t.remixer ||
  REGEXP R q t.label || REGEXP R q t.comments

/-- The free-text disjunction over the eight searched columns, in the
default `LIKE` mode: `title LIKE '%q%' OR ... OR comments LIKE '%q%'`. -/
def freeTextLike (q : List Char) (t : Track) : Bool :=
  likeContains t.title q || likeContains t.artist q || likeContains t.album q ||
  likeContains t.filename q || likeContains t.genre q || likeContains t.remixer q ||
  likeContains t.label q || likeContains t.comments q

/-- Free-text condition of `_build_search_query`:
`if args.regex and args.query:` use `REGEXP`, `elif args.query:` use
`LIKE`; absent or empty query contributes no condition (vacuously true
under the `AND` of all conditions). -/
def passQuery (R : List Char → List Char → Bool) (a : SearchArgs) (t : Track) : Bool :=
  match a.query with
  | none => true
  | some q =>
    if q = [] then true
    else if a.regex then freeTextRegex R q t else freeTextLike q t

/-- A field-scoped filter condition: `REGEXP(?, column)` when the shared
`--re` flag is set, `column LIKE '%v%'` otherwise; absent/empty argument
contributes no condition. -/
def passField (R : List Char → List Char → Bool) (useRe : Bool)
    (arg : Option (List Char)) (field : Option (List Char)) : Bool :=
  match arg with
  | none => true
  | some v =>
    if v = [] then true
    else if useRe then REGEXP R v field else likeContains field v

/-- `source_label LIKE '%v%'` (always substring, never regex). -/
def passSource (a : SearchArgs) (t : Track) : Bool :=
  match a.source with
  | none => true
  | some v => if v = [] then true else likeContains t.source_label v

/-- `file_format = ?` (exact equality). -/
def passFormat (a : SearchArgs) (t : Track) : Bool :=
  match a.format with
  | none => true
  | some v => if v = [] then true else sqlEqText t.file_format v

/-- `bpm >= ?`: applied whenever `args.bpm_min is not None` (no
truthiness check: 0 counts). -/
def passBpmMin (a : SearchArgs) (t : Track) : Bool :=
  match a.bpm_min with
  | none => true
  | some m => bpmGe t.bpm m

/-- `bpm <= ?`: applied whenever `args.bpm_max is not None`. -/
def passBpmMax (a : SearchArgs) (t : Track) : Bool :=
  match a.bpm_max with
  | none => true
  | some m => bpmLe t.bpm m

/-- `in_rekordbox = 1` when `--in-rekordbox` is set. -/
def passInRB (a : SearchArgs) (t : Track) : Bool :=
  if a.in_rekordbox then t.in_rekordbox == 1 else true

/-- `in_rekordbox = 0` when `--not-in-rekordbox` is set. -/
def passNotInRB (a : SearchArgs) (t : Track) : Bool :=
  if a.not_in_rekordbox then t.in_rekordbox == 0 else true

/-- Row semantics of the `WHERE` clause built by `_build_search_query`:
the conjunction (`" AND ".join(conditions)`) of every applied condition;
an empty condition list is `1=1`, i.e. `true`. The `LEFT JOIN` against
`cue_points` with `GROUP BY t.id` never removes or duplicates a track
row, so which tracks satisfy the query is decided by this predicate. -/
def searchWhere (R : List Char → List Char → Bool) (a : SearchArgs) (t : Track) : Bool :=
  passQuery R a t && passField R a.re a.artist t.artist &&
  passField R a.re a.title t.title && passField R a.re a.filename t.filename &&
  passField R a.re a.genre t.genre && passField R a.re a.key t.musical_key &&
  passSource a t && passFormat a t && passBpmMin a t && passBpmMax a t &&
  passInRB a t && passNotInRB a t

/-- SQLite BINARY comparison of two text values, restricted to the
code-point order that agrees with byte order on ASCII. -/
def charListLe : List Char → List Char → Bool
  | [], _ => true
  | _ :: _, [] => false
  | a :: as, b :: bs => if a = b then charListLe as bs else decide (a.toNat < b.toNat)

/-- `ORDER BY t.artist, t.title` comparison: SQLite sorts `NULL` first,
then text in BINARY order. -/
def rowLe (t u : Track) : Bool :=
  if t.artist = u.artist then
    match t.title, u.title with
    | none, _ => true
    | some _, none => false
    | some x, some y => charListLe x y
  else
    match t.artist, u.artist with
    | none, _ => true
    | some _, none => false
    | some x, some y => charListLe x y

/-- Result list of the query built by `_build_search_query` over a table
of track rows: `WHERE` filter, `ORDER BY t.artist, t.title`, then
`LIMIT args.limit`. (The sort models SQLite's ordering; ties are in an
unspecified order there, insertion sort picks one.) -/
def searchResults (R : List Char → List Char → Bool) (a : SearchArgs)
    (rows : List Track) : List Track :=
  (List.insertionSort (fun t u => rowLe t u = true) (rows.filter (searchWhere R a))).take a.limit

/-- One optional filter argument of the search command, with its value. -/
inductive SFilter where
  | query (q : List Char)
  | artist (s : List Char)
  | title (s : List Char)
  | filename (s : List Char)
  | genre (s : List Char)
  | key (s : List Char)
  | source (s : List Char)
  | format (s : List Char)
  | bpmMin (x : Rat)
  | bpmMax (x : Rat)
  | inRB
  | notInRB

/-- Which argument slot a filter occupies (two filters with the same
index would overwrite one another). -/
def filterField : SFilter → Nat
  | .query _ => 0
  | .artist _ => 1
  | .title _ => 2
  | .filename _ => 3
  | .genre _ => 4
  | .key _ => 5
  | .source _ => 6
  | .format _ => 7
  | .bpmMin _ => 8
  | .bpmMax _ => 9
  | .inRB => 10
  | .notInRB => 11

/-- Supply one filter argument on top of an argument set. -/
def applyFilter (a : SearchArgs) : SFilter → SearchArgs
  | .query q => { a with query := some q }
  | .artist s => { a with artist := some s }
  | .title s => { a with title := some s }
  | .filename s => { a with filename := some s }
  | .genre s => { a with genre := some s }
  | .key s => { a with key := some s }
  | .source s => { a with source := some s }
  | .format s => { a with format := some s }
  | .bpmMin x => { a with bpm_min := some x }
  | .bpmMax x => { a with bpm_max := some x }
  | .inRB => { a with in_rekordbox := true }
  | .notInRB => { a with not_in_rekordbox := true }

/-- Remove every optional filter, keeping the mode flags and the result
cap: the "no filters applied" invocation of the same search. -/
def clearArgs (a : SearchArgs) : SearchArgs :=
  { a with query := none, artist := none, title := none, filename := none,
           genre := none, key := none, source := none, format := none,
           bpm_min := none, bpm_max := none,
           in_rekordbox := false, not_in_rekordbox := false }

/-- Spec-side notion used by the free-text claim: a nullable field
"contains the query case-insensitively" — `NULL` contains nothing. -/
def fieldContainsCI (field : Option (List Char)) (q : List Char) : Bool :=
  match field with
  | none => false
  | some s => decide (lowerL q <:+: lowerL s)

/-- Spec-side free-text match: at least one of the eight searched fields
contains the query case-insensitively. -/
def anyFieldContainsCI (t : Track) (q : List Char) : Bool :=
  fieldContainsCI t.title q || fieldContainsCI t.artist q ||
  fieldContainsCI t.album q || fieldContainsCI t.filename q ||
  fieldContainsCI t.genre q || fieldContainsCI t.remixer q ||
  fieldContainsCI t.label q || fieldContainsCI t.comments q

/-- Python `str.split(sep)` for a single-character separator: keeps empty
segments, `[] ↦ [[]]`. -/
def pySplit (sep : Char) : List Char → List (List Char)
  | [] => [[]]
  | c :: cs =>
    match pySplit sep cs with
    | [] => [[c]]
    | h :: t => if c = sep then [] :: h :: t else (c :: h) :: t

/-- The style-A root marker `"/Volumes/"`. -/
def macRoot : List Char := "/Volumes/".data

/-- Python `sep.join(parts)` for a single-character separator. -/
def pyJoin (sep : Char) : List (List Char) → List Char
  | [] => []
  | [x] => x
  | x :: y :: rest => x ++ sep :: pyJoin sep (y :: rest)

/-- The drive-letter computation of `_mac_to_windows`: the mapping entry
when the volume name is present, otherwise the upper-cased first
character of the volume name (`"X"` for an empty volume name). -/
def driveLetter (volume_name : List Char) (volume_mappings : List (List Char × List Char)) :
    List Char :=
  match List.lookup volume_name volume_mappings with
  | some d => d
  | none =>
    match volume_name with
    | [] => ['X']
    | c :: _ => [c.toUpper]

/-- `_mac_to_windows` from `export_results.py`: convert a Mac path to a
Windows path. The volume-to-drive dict argument is an association list;
`if volume_mappings and volume_name in volume_mappings` is a successful
lookup (an absent or empty dict never looks up). `parts[3:]` joined with
a backslash is `intercalate` over `drop 3` (both give `""` when there is
nothing to join). -/
def mac_to_windows (mac_path : List Char) (volume_mappings : List (List Char × List Char)) :
    List Char :=
  if ¬ macRoot.isPrefixOf mac_path then mac_path
  else
    let parts := pySplit '/' mac_path
    if parts.length < 3 then mac_path
    else
      let volume_name := parts.getD 2 []
      let drive := driveLetter volume_name volume_mappings
      let remaining_path := pyJoin '\\' (parts.drop 3)
      if remaining_path = [] then drive ++ [':', '\\']
      else drive ++ ':' :: '\\' :: remaining_path

/-- The volume-name recovery of `_windows_to_mac`: the first dict entry
whose value, upper-cased, equals the (already upper-cased) drive letter;
Python's `if not volume_name` falls back to the generic placeholder both
when no entry matches and when the matched volume name is empty. -/
def reverseVolume (drive_letter : Char) (volume_mappings : List (List Char × List Char)) :
    List Char :=
  let volume_name :=
    match volume_mappings.find? (fun p => p.2.map Char.toUpper == [drive_letter]) with
    | some p => p.1
    | none => []
  if volume_name = [] then "Volume".data ++ [drive_letter] else volume_name

/-- `_windows_to_mac` from `export_results.py`: convert a Windows path to
a Mac path. Requires the `":\"` marker somewhere in the path; the drive
letter is the upper-cased first character; `windows_path[3:]` is empty
unless the path is longer than three characters. -/
def windows_to_mac (windows_path : List Char) (volume_mappings : List (List Char × List Char)) :
    List Char :=
  if ¬ ([':', '\\'] <:+: windows_path) then windows_path
  else
    let volume_name := reverseVolume windows_path.headI.toUpper volume_mappings
    let remaining_path :=
      if 3 < windows_path.length then
        (windows_path.drop 3).map (fun c => if c = '\\' then '/' else c)
      else []
    if remaining_path = [] then macRoot ++ volume_name
    else macRoot ++ volume_name ++ '/' :: remaining_path

/-- `_convert_path` from `export_results.py`: dispatch between the two
conversion directions, passing the value through unchanged when it or
either platform label is absent/empty (Python truthiness), when the two
labels are equal, or when the lower-cased labels are not a recognized
mac/windows pair. The `try/except` around the dispatch has no effect in
this total model. -/
def convert_path (filepath : Option (List Char)) (from_platform to_platform : Option (List Char))
    (volume_mappings : List (List Char × List Char)) : Option (List Char) :=
  match filepath, from_platform, to_platform with
  | some f, some a, some b =>
    if f = [] ∨ a = [] ∨ b = [] then filepath
    else if a = b then filepath
    else
      let a' := lowerL a
      let b' := lowerL b
      if a' = "mac".data ∧ b' = "windows".data then some (mac_to_windows f volume_mappings)
      else if a' = "windows".data ∧ b' = "mac".data then some (windows_to_mac f volume_mappings)
      else filepath
  | _, _, _ => filepath

/-- The column names that `export_to_csv` treats as path columns. -/
def pathColumnNames : List (List Char) := ["filepath".data, "path".data, "file_path".data]

/-- Outcome of one `export_to_csv` call, as observable effects: either a
user-visible "No results to export." message with no file touched, a
user-visible "no valid columns" error with no file touched, or a CSV file
written with the given header row and body rows. -/
inductive ExportOutcome where
  | noResults
  | noValidColumns
  | wrote (header : List (List Char)) (body : List (List (Option (List Char))))
deriving DecidableEq

/-- The CSV-writing loop of `export_to_csv`: header row of the exported
column names, then per input row one output row of the selected cells,
path cells converted when conversion settings are present. -/
def exportWrite (rows : List (List (Option (List Char))))
    (col_indices : List Nat) (export_cols : List (List Char))
    (path_conversion : Option (Option (List Char) × Option (List Char)))
    (volume_mappings : List (List Char × List Char)) : ExportOutcome :=
  let convertCell := fun (name : List Char) (v : Option (List Char)) =>
    match path_conversion with
    | none => v
    | some (fp, tp) =>
      if pathColumnNames.contains name then convert_path v fp tp volume_mappings else v
  .wrote export_cols (rows.map (fun row =>
    (col_indices.zip export_cols).map (fun p => convertCell p.2 (row.getD p.1 none))))

/-- `export_to_csv` from `export_results.py`. Cell values are modeled as
nullable text (the only cells the function inspects are the path cells it
converts). `rows = []` is Python's `if not rows:` early return — before
the output file is opened. An explicit column selection keeps, in request
order, the requested names found in `column_names` together with their
first index there; an empty resolved selection is the hard "no valid
columns" error (that check is only reached when a selection was given).
The path conversion settings are `None`, or a pair of the settings dict's
`from_platform` / `to_platform` entries. -/
def export_to_csv (rows : List (List (Option (List Char))))
    (column_names : List (List Char)) (selected_columns : Option (List (List Char)))
    (path_conversion : Option (Option (List Char) × Option (List Char)))
    (volume_mappings : List (List Char × List Char)) : ExportOutcome :=
  if rows = [] then .noResults
  else
    match selected_columns with
    | none =>
      exportWrite rows (List.range column_names.length) column_names
        path_conversion volume_mappings
    | some sel =>
      let export_cols := sel.filter (fun c => column_names.contains c)
      let col_indices := export_cols.map (fun c => List.indexOf c column_names)
      if col_indices = [] then .noValidColumns
      else exportWrite rows col_indices export_cols path_conversion volume_mappings

/-- SQL `COALESCE(NULLIF(new, ''), old)`: take the new text value exactly
when it is non-null and non-empty, otherwise keep the old one. -/
def coalesceNullif (newv old : Option (List Char)) : Option (List Char) :=
  match newv with
  | none => old
  | some s => if s = [] then old else some s

/-- SQL `COALESCE(new, old)` on a numeric column: take the new value
exactly when it is non-null. -/
def coalesceNum {α : Type} (newv old : Option α) : Option α :=
  match newv with
  | none => old
  | some x => some x

/-- Python `value or None` on an optional string: the empty string is
falsy and collapses to `None`. `import_xml` applies this to every textual
XML attribute before binding it into the SQL. -/
def pyOrNone (v : Option (List Char)) : Option (List Char) :=
  match v with
  | some s => if s = [] then none else some s
  | none => none

/-- One full row of the `tracks` table (schema in `db.py`), as touched by
the scanner and XML-import upserts. `date_indexed` is the stored
timestamp text. -/
structure TrackRow where
  id : Int
  filepath : Option (List Char)
  filename : Option (List Char)
  filename_lower : Option (List Char)
  source_label : Option (List Char)
  title : Option (List Char)
  artist : Option (List Char)
  album : Option (List Char)
  genre : Option (List Char)
  bpm : Option Rat
  musical_key : Option (List Char)
  duration_sec : Option Rat
  bitrate : Option Int
  sample_rate : Option Int
  file_format : Option (List Char)
  file_size : Option Int
  in_rekordbox : Int
  rb_track_id : Option (List Char)
  rb_location : Option (List Char)
  comments : Option (List Char)
  rating : Option Int
  label : Option (List Char)
  remixer : Option (List Char)
  color : Option (List Char)
  date_indexed : Option (List Char)
deriving DecidableEq

/-- The per-track values `import_xml` reads from one XML `TRACK` element,
before Python's `or None` normalization: raw textual attributes (which
may be the empty string) and numeric attributes already passed through
`db.safe_float` / `db.safe_int`. -/
structure XmlIncoming where
  title : Option (List Char)
  artist : Option (List Char)
  album : Option (List Char)
  genre : Option (List Char)
  bpm : Option Rat
  musical_key : Option (List Char)
  comments : Option (List Char)
  label : Option (List Char)
  remixer : Option (List Char)
  bitrate : Option Int
  sample_rate : Option Int
  duration_sec : Option Rat
  rb_track_id : Option (List Char)
  location : Option (List Char)
deriving DecidableEq

/-- The `UPDATE tracks SET ... WHERE id = ?` statement of `import_xml`
(the branch for a track matched by `filename_lower`): textual metadata
merges by `COALESCE(NULLIF(?, ''), old)` over the `or None`-normalized
binding, numeric metadata by `COALESCE(?, old)`; `in_rekordbox`,
`rb_track_id`, `rb_location` and `date_indexed` are set outright; every
other column is untouched. -/
def xmlUpdateExisting (old : TrackRow) (x : XmlIncoming) (now : List Char) : TrackRow :=
  { old with
    title := coalesceNullif (pyOrNone x.title) old.title
    artist := coalesceNullif (pyOrNone x.artist) old.artist
    album := coalesceNullif (pyOrNone x.album) old.album
    genre := coalesceNullif (pyOrNone x.genre) old.genre
    bpm := coalesceNum x.bpm old.bpm
    musical_key := coalesceNullif (pyOrNone x.musical_key) old.musical_key
    comments := coalesceNullif (pyOrNone x.comments) old.comments
    label := coalesceNullif (pyOrNone x.label) old.label
    remixer := coalesceNullif (pyOrNone x.remixer) old.remixer
    bitrate := coalesceNum x.bitrate old.bitrate
    sample_rate := coalesceNum x.sample_rate old.sample_rate
    duration_sec := coalesceNum x.duration_sec old.duration_sec
    in_rekordbox := 1
    rb_track_id := x.rb_track_id
    rb_location := x.location
    date_indexed := some now }

/-- The `ON CONFLICT(filepath) DO UPDATE SET` clause of `import_xml`'s
insert (the branch for an unmatched filename whose `filepath` already
exists): same merge combinators over the same bindings, and additionally
`filename` / `filename_lower` replaced outright, `source_label` and
`file_format` merged with the non-empty-new-wins rule. `file_format` is
bound to `Path(filename).suffix.lower()`, passed in here as a value. -/
def xmlUpsertUpdate (old : TrackRow) (x : XmlIncoming) (filename file_format : List Char)
    (now : List Char) : TrackRow :=
  { old with
    filename := some filename
    filename_lower := some (lowerL filename)
    source_label := coalesceNullif (some "rekordbox XML".data) old.source_label
    title := coalesceNullif (pyOrNone x.title) old.title
    artist := coalesceNullif (pyOrNone x.artist) old.artist
    album := coalesceNullif (pyOrNone x.album) old.album
    genre := coalesceNullif (pyOrNone x.genre) old.genre
    bpm := coalesceNum x.bpm old.bpm
    musical_key := coalesceNullif (pyOrNone x.musical_key) old.musical_key
    duration_sec := coalesceNum x.duration_sec old.duration_sec
    bitrate := coalesceNum x.bitrate old.bitrate
    sample_rate := coalesceNum x.sample_rate old.sample_rate
    file_format := coalesceNullif (some file_format) old.file_format
    comments := coalesceNullif (pyOrNone x.comments) old.comments
    label := coalesceNullif (pyOrNone x.label) old.label
    remixer := coalesceNullif (pyOrNone x.remixer) old.remixer
    in_rekordbox := 1
    rb_track_id := x.rb_track_id
    rb_location := x.location
    date_indexed := some now }

/-- The values `_insert_or_update_track` binds for one scanned file: the
path-derived columns plus the metadata dict produced by
`_extract_metadata` (each entry may be `None`; text entries may also be
extracted as the empty string). -/
structure ScanMeta where
  filename : List Char
  source_label : List Char
  title : Option (List Char)
  artist : Option (List Char)
  album : Option (List Char)
  genre : Option (List Char)
  bpm : Option Rat
  musical_key : Option (List Char)
  duration_sec : Option Rat
  bitrate : Option Int
  sample_rate : Option Int
  file_format : Option (List Char)
  file_size : Option Int
  comments : Option (List Char)
  label : Option (List Char)
  remixer : Option (List Char)
deriving DecidableEq

/-- The `ON CONFLICT(filepath) DO UPDATE SET` clause of
`_insert_or_update_track` in `scanner.py`, i.e. what a directory re-scan
does to an existing row with the same `filepath`: `source_label` is
replaced outright by the new scan label and `date_indexed` refreshed;
each metadata column merges by `COALESCE(NULLIF(excluded.v, ''), old)`
(text) or `COALESCE(excluded.v, old)` (numeric); every column not listed
in the clause — `filepath`, `filename_lower`, `in_rekordbox`,
`rb_track_id`, `rb_location`, `rating`, `color`, `id` — is untouched. -/
def scanUpdate (old : TrackRow) (x : ScanMeta) (now : List Char) : TrackRow :=
  { old with
    filename := coalesceNullif (some x.filename) old.filename
    source_label := some x.source_label
    title := coalesceNullif x.title old.title
    artist := coalesceNullif x.artist old.artist
    album := coalesceNullif x.album old.album
    genre := coalesceNullif x.genre old.genre
    bpm := coalesceNum x.bpm old.bpm
    musical_key := coalesceNullif x.musical_key old.musical_key
    duration_sec := coalesceNum x.duration_sec old.duration_sec
    bitrate := coalesceNum x.bitrate old.bitrate
    sample_rate := coalesceNum x.sample_rate old.sample_rate
    file_format := coalesceNullif x.file_format old.file_format
    file_size := coalesceNum x.file_size old.file_size
    comments := coalesceNullif x.comments old.comments
    label := coalesceNullif x.label old.label
    remixer := coalesceNullif x.remixer old.remixer
    date_indexed := some now }

/-- The merge behavior the spec demands of a textual metadata column: the
incoming value wins exactly when it is non-null and non-empty, and an
absent or empty incoming value keeps the old one. -/
def textMergeOk (inc old newv : Option (List Char)) : Prop :=
  ((inc = none ∨ inc = some []) → newv = old) ∧
  (∀ s, inc = some s → s ≠ [] → newv = some s)

/-- The merge behavior the spec demands of a numeric metadata column: the
incoming value wins exactly when it is non-null. -/
def numMergeOk {α : Type} (inc old newv : Option α) : Prop :=
  (inc = none → newv = old) ∧ (∀ v, inc = some v → newv = some v)

/-- Concrete track row used to instantiate the update theorems. -/
def sampleRow : TrackRow :=
  { id := 1, filepath := some "/Volumes/USB1/b.mp3".data, filename := some "b.mp3".data,
    filename_lower := some "b.mp3".data, source_label := some "USB1".data,
    title := some "Old Title".data, artist := some "Old Artist".data, album := none,
    genre := none, bpm := some 120, musical_key := none, duration_sec := none,
    bitrate := none, sample_rate := none, file_format := some ".mp3".data,
    file_size := some 42, in_rekordbox := 0, rb_track_id := none, rb_location := none,
    comments := none, rating := some 5, label := none, remixer := none,
    color := some "pink".data, date_indexed := some "2020-01-01".data }

/-- Concrete XML-import values: empty incoming title, non-empty incoming
artist, absent incoming bpm. -/
def sampleXml : XmlIncoming :=
  { title := some [], artist := some "New Artist".data, album := none, genre := none,
    bpm := none, musical_key := none, comments := none, label := none, remixer := none,
    bitrate := some 320, sample_rate := none, duration_sec := none,
    rb_track_id := some "17".data, location := some "file:x".data }

/-- Concrete scanner metadata: empty incoming title, non-empty incoming
artist, absent incoming bpm. -/
def sampleScan : ScanMeta :=
  { filename := "b.mp3".data, source_label := "USB2".data, title := some [],
    artist := some "Tagged Artist".data, album := none, genre := none, bpm := none,
    musical_key := none, duration_sec := some 301, bitrate := none, sample_rate := none,
    file_format := some ".mp3".data, file_size := some 43, comments := none,
    label := none, remixer := none }

/-- Search arguments with every filter absent, substring modes, and the
default result cap of 100. -/
def baseArgs : SearchArgs :=
  { query := none, regex := false, re := false, artist := none, title := none,
    filename := none, genre := none, key := none, source := none, format := none,
    bpm_min := none, bpm_max := none, in_rekordbox := false, not_in_rekordbox := false,
    limit := 100 }

/-- A track whose title is `"abc"` and whose other fields are null. -/
def trackABC : Track :=
  { title := some "abc".data, artist := none, album := none, filename := none,
    genre := none, remixer := none, label := none, comments := none,
    musical_key := none, source_label := none, file_format := none,
    bpm := none, in_rekordbox := 0 }

/-- A regex oracle that never matches: exposes any silent fallback from
regex mode to substring mode. -/
def neverMatch : List Char → List Char → Bool := fun _ _ => false

/-- The three tracks of the spec's tempo-filter example. -/
def bicep1 : Track :=
  { title := some "Electric Dreams".data, artist := some "Bicep".data, album := none,
    filename := none, genre := some "Techno".data, remixer := none, label := none,
    comments := none, musical_key := none, source_label := none, file_format := none,
    bpm := some 128, in_rekordbox := 0 }

def bicep2 : Track :=
  { title := some "Glue".data, artist := some "Bicep".data, album := none,
    filename := none, genre := some "Techno".data, remixer := none, label := none,
    comments := none, musical_key := none, source_label := none, file_format := none,
    bpm := some 129, in_rekordbox := 0 }

def hopkins : Track :=
  { title := some "Ambient Waves".data, artist := some "Jon Hopkins".data, album := none,
    filename := none, genre := some "Ambient".data, remixer := none, label := none,
    comments := none, musical_key := none, source_label := none, file_format := none,
    bpm := some 110, in_rekordbox := 0 }

/-- Two tracks distinguished only by artist, for exercising the result
cap: under `ORDER BY artist`, `"Alpha"` sorts before `"Beta"`. -/
def trackAlpha : Track :=
  { title := none, artist := some "Alpha".data, album := none, filename := none,
    genre := none, remixer := none, label := none, comments := none,
    musical_key := none, source_label := none, file_format := none,
    bpm := none, in_rekordbox := 0 }

def trackBeta : Track :=
  { title := none, artist := some "Beta".data, album := none, filename := none,
    genre := none, remixer := none, label := none, comments := none,
    musical_key := none, source_label := none, file_format := none,
    bpm := none, in_rekordbox := 0 }

theorem textMergeOk_of_pyOrNone (v o : Option (List Char)) :
    textMergeOk v o (coalesceNullif (pyOrNone v) o) := by
  constructor
  · rintro (rfl | rfl) <;> simp [coalesceNullif, pyOrNone]
  · rintro s rfl hs
    simp [coalesceNullif, pyOrNone, hs]

theorem textMergeOk_of_coalesceNullif (v o : Option (List Char)) :
    textMergeOk v o (coalesceNullif v o) := by
  constructor
  · rintro (rfl | rfl) <;> simp [coalesceNullif]
  · rintro s rfl hs
    simp [coalesceNullif, hs]

theorem numMergeOk_of_coalesceNum {α : Type} (v o : Option α) :
    numMergeOk v o (coalesceNum v o) := by
  constructor
  · rintro rfl; rfl
  · rintro x rfl; rfl

/-- C4: a catalog (rekordbox XML) import never overwrites a non-empty
existing metadata value with an empty or absent incoming one — in both
the `filename_lower`-matched `UPDATE` branch and the
`ON CONFLICT(filepath)` upsert branch, each of the twelve metadata
columns takes the incoming value exactly when it is non-empty/non-null
and keeps the old value otherwise. -/
theorem xml_import_merge_preserves_existing (old : TrackRow) (x : XmlIncoming)
    (filename file_format now : List Char) :
    (textMergeOk x.title old.title (xmlUpdateExisting old x now).title ∧
     textMergeOk x.artist old.artist (xmlUpdateExisting old x now).artist ∧
     textMergeOk x.album old.album (xmlUpdateExisting old x now).album ∧
     textMergeOk x.genre old.genre (xmlUpdateExisting old x now).genre ∧
     textMergeOk x.musical_key old.musical_key (xmlUpdateExisting old x now).musical_key ∧
     textMergeOk x.comments old.comments (xmlUpdateExisting old x now).comments ∧
     textMergeOk x.label old.label (xmlUpdateExisting old x now).label ∧
     textMergeOk x.remixer old.remixer (xmlUpdateExisting old x now).remixer ∧
     numMergeOk x.bpm old.bpm (xmlUpdateExisting old x now).bpm ∧
     numMergeOk x.bitrate old.bitrate (xmlUpdateExisting old x now).bitrate ∧
     numMergeOk x.sample_rate old.sample_rate (xmlUpdateExisting old x now).sample_rate ∧
     numMergeOk x.duration_sec old.duration_sec (xmlUpdateExisting old x now).duration_sec) ∧
    (textMergeOk x.title old.title (xmlUpsertUpdate old x filename file_format now).title ∧
     textMergeOk x.artist old.artist (xmlUpsertUpdate old x filename file_format now).artist ∧
     textMergeOk x.album old.album (xmlUpsertUpdate old x filename file_format now).album ∧
     textMergeOk x.genre old.genre (xmlUpsertUpdate old x filename file_format now).genre ∧
     textMergeOk x.musical_key old.musical_key
       (xmlUpsertUpdate old x filename file_format now).musical_key ∧
     textMergeOk x.comments old.comments (xmlUpsertUpdate old x filename file_format now).comments ∧
     textMergeOk x.label old.label (xmlUpsertUpdate old x filename file_format now).label ∧
     textMergeOk x.remixer old.remixer (xmlUpsertUpdate old x filename file_format now).remixer ∧
     numMergeOk x.bpm old.bpm (xmlUpsertUpdate old x filename file_format now).bpm ∧
     numMergeOk x.bitrate old.bitrate (xmlUpsertUpdate old x filename file_format now).bitrate ∧
     numMergeOk x.sample_rate old.sample_rate
       (xmlUpsertUpdate old x filename file_format now).sample_rate ∧
     numMergeOk x.duration_sec old.duration_sec
       (xmlUpsertUpdate old x filename file_format now).duration_sec) :=
  ⟨⟨textMergeOk_of_pyOrNone _ _, textMergeOk_of_pyOrNone _ _, textMergeOk_of_pyOrNone _ _,
    textMergeOk_of_pyOrNone _ _, textMergeOk_of_pyOrNone _ _, textMergeOk_of_pyOrNone _ _,
    textMergeOk_of_pyOrNone _ _, textMergeOk_of_pyOrNone _ _, numMergeOk_of_coalesceNum _ _,
    numMergeOk_of_coalesceNum _ _, numMergeOk_of_coalesceNum _ _, numMergeOk_of_coalesceNum _ _⟩,
   ⟨textMergeOk_of_pyOrNone _ _, textMergeOk_of_pyOrNone _ _, textMergeOk_of_pyOrNone _ _,
    textMergeOk_of_pyOrNone _ _, textMergeOk_of_pyOrNone _ _, textMergeOk_of_pyOrNone _ _,
    textMergeOk_of_pyOrNone _ _, textMergeOk_of_pyOrNone _ _, numMergeOk_of_coalesceNum _ _,
    numMergeOk_of_coalesceNum _ _, numMergeOk_of_coalesceNum _ _, numMergeOk_of_coalesceNum _ _⟩⟩

/-- Witness for C4: on the sample row, the empty incoming title keeps the
old title and the non-empty incoming artist replaces the old artist, in
both import branches. -/
theorem xml_import_merge_preserves_existing_witness :
    (xmlUpdateExisting sampleRow sampleXml "2024".data).title = sampleRow.title ∧
    (xmlUpdateExisting sampleRow sampleXml "2024".data).artist = some "New Artist".data ∧
    (xmlUpsertUpdate sampleRow sampleXml "b.mp3".data ".mp3".data "2024".data).title =
      sampleRow.title :=
  ⟨(xml_import_merge_preserves_existing sampleRow sampleXml "b.mp3".data ".mp3".data
      "2024".data).1.1.1 (Or.inr rfl),
   (xml_import_merge_preserves_existing sampleRow sampleXml "b.mp3".data ".mp3".data
      "2024".data).1.2.1.2 "New Artist".data rfl (by decide),
   (xml_import_merge_preserves_existing sampleRow sampleXml "b.mp3".data ".mp3".data
      "2024".data).2.1.1 (Or.inr rfl)⟩

/-- C10: a directory re-scan of an already-indexed filepath replaces
`source_label` unconditionally and refreshes `date_indexed`; each other
metadata column is overwritten only when the newly extracted value is
non-null and non-empty; and `filepath`, `filename_lower`,
`in_rekordbox`, `rb_track_id`, `rb_location`, `rating`, `color` (and the
row id) are left unchanged. -/
theorem scan_update_semantics (old : TrackRow) (x : ScanMeta) (now : List Char) :
    (scanUpdate old x now).source_label = some x.source_label ∧
    (scanUpdate old x now).date_indexed = some now ∧
    textMergeOk (some x.filename) old.filename (scanUpdate old x now).filename ∧
    textMergeOk x.title old.title (scanUpdate old x now).title ∧
    textMergeOk x.artist old.artist (scanUpdate old x now).artist ∧
    textMergeOk x.album old.album (scanUpdate old x now).album ∧
    textMergeOk x.genre old.genre (scanUpdate old x now).genre ∧
    textMergeOk x.musical_key old.musical_key (scanUpdate old x now).musical_key ∧
    textMergeOk x.file_format old.file_format (scanUpdate old x now).file_format ∧
    textMergeOk x.comments old.comments (scanUpdate old x now).comments ∧
    textMergeOk x.label old.label (scanUpdate old x now).label ∧
    textMergeOk x.remixer old.remixer (scanUpdate old x now).remixer ∧
    numMergeOk x.bpm old.bpm (scanUpdate old x now).bpm ∧
    numMergeOk x.duration_sec old.duration_sec (scanUpdate old x now).duration_sec ∧
    numMergeOk x.bitrate old.bitrate (scanUpdate old x now).bitrate ∧
    numMergeOk x.sample_rate old.sample_rate (scanUpdate old x now).sample_rate ∧
    numMergeOk x.file_size old.file_size (scanUpdate old x now).file_size ∧
    (scanUpdate old x now).id = old.id ∧
    (scanUpdate old x now).filepath = old.filepath ∧
    (scanUpdate old x now).filename_lower = old.filename_lower ∧
    (scanUpdate old x now).in_rekordbox = old.in_rekordbox ∧
    (scanUpdate old x now).rb_track_id = old.rb_track_id ∧
    (scanUpdate old x now).rb_location = old.rb_location ∧
    (scanUpdate old x now).rating = old.rating ∧
    (scanUpdate old x now).color = old.color :=
  ⟨rfl, rfl, textMergeOk_of_coalesceNullif _ _, textMergeOk_of_coalesceNullif _ _,
   textMergeOk_of_coalesceNullif _ _, textMergeOk_of_coalesceNullif _ _,
   textMergeOk_of_coalesceNullif _ _, textMergeOk_of_coalesceNullif _ _,
   textMergeOk_of_coalesceNullif _ _, textMergeOk_of_coalesceNullif _ _,
   textMergeOk_of_coalesceNullif _ _, textMergeOk_of_coalesceNullif _ _,
   numMergeOk_of_coalesceNum _ _, numMergeOk_of_coalesceNum _ _,
   numMergeOk_of_coalesceNum _ _, numMergeOk_of_coalesceNum _ _,
   numMergeOk_of_coalesceNum _ _, rfl, rfl, rfl, rfl, rfl, rfl, rfl, rfl⟩

/-- Witness for C10: on the sample row, a re-scan with a new label
replaces the label, keeps the title against an empty extraction, keeps
the bpm against a null extraction, and leaves the rating unchanged. -/
theorem scan_update_semantics_witness :
    (scanUpdate sampleRow sampleScan "2024".data).source_label = some "USB2".data ∧
    (scanUpdate sampleRow sampleScan "2024".data).title = sampleRow.title ∧
    (scanUpdate sampleRow sampleScan "2024".data).bpm = sampleRow.bpm ∧
    (scanUpdate sampleRow sampleScan "2024".data).rating = sampleRow.rating :=
  ⟨(scan_update_semantics sampleRow sampleScan "2024".data).1,
   (scan_update_semantics sampleRow sampleScan "2024".data).2.2.2.1.1 (Or.inr rfl),
   (scan_update_semantics sampleRow sampleScan "2024".data).2.2.2.2.2.2.2.2.2.2.2.2.1.1 rfl,
   (scan_update_semantics sampleRow sampleScan "2024".data).2.2.2.2.2.2.2.2.2.2.2.2.2.2.2.2.2.2.2.2.2.2.2.1⟩

/-- C7: the CSV export layer, invoked with zero input rows, reports the
"nothing to export" outcome and never reaches the file-writing branch,
for every column list, column selection and conversion setting. -/
theorem export_zero_rows_no_file (column_names : List (List Char))
    (selected_columns : Option (List (List Char)))
    (path_conversion : Option (Option (List Char) × Option (List Char)))
    (volume_mappings : List (List Char × List Char)) :
    export_to_csv [] column_names selected_columns path_conversion volume_mappings =
      ExportOutcome.noResults := by
  simp [export_to_csv]

/-- C6: path conversion passes the value through unchanged when the value
is absent or empty, when either convention label is absent or empty, when
the two labels are equal, and when the value lacks the expected
source-convention shape (the style-A root prefix for mac→windows, the
drive-letter `:\` marker for windows→mac). -/
theorem convert_path_noop_cases (fp fromP toP : Option (List Char))
    (m : List (List Char × List Char)) :
    ((fp = none ∨ fp = some []) → convert_path fp fromP toP m = fp) ∧
    ((fromP = none ∨ fromP = some []) → convert_path fp fromP toP m = fp) ∧
    ((toP = none ∨ toP = some []) → convert_path fp fromP toP m = fp) ∧
    (fromP = toP → convert_path fp fromP toP m = fp) ∧
    (∀ s, fp = some s → fromP = some "mac".data → toP = some "windows".data →
      macRoot.isPrefixOf s = false → convert_path fp fromP toP m = fp) ∧
    (∀ s, fp = some s → fromP = some "windows".data → toP = some "mac".data →
      ¬ ([':', '\\'] <:+: s) → convert_path fp fromP toP m = fp) := by
  refine ⟨?_, ?_, ?_, ?_, ?_, ?_⟩
  · rintro (rfl | rfl) <;> simp [convert_path]
    cases fromP <;> cases toP <;> simp [convert_path]
  · rintro (rfl | rfl)
    · cases fp <;> simp [convert_path]
    · cases fp <;> cases toP <;> simp [convert_path]
  · rintro (rfl | rfl)
    · cases fp <;> cases fromP <;> simp [convert_path]
    · cases fp <;> cases fromP <;> simp [convert_path]
  · rintro rfl
    cases fp <;> cases fromP <;> simp [convert_path]
  · rintro s rfl rfl rfl hpre
    by_cases hs : s = []
    · simp [convert_path, hs]
    · simp [convert_path, hs, lowerL, mac_to_windows, hpre]
  · rintro s rfl rfl rfl hinf
    by_cases hs : s = []
    · simp [convert_path, hs]
    · simp [convert_path, hs, lowerL, windows_to_mac, hinf]

/-- Witness for C6: a path without the style-A prefix is passed through
unchanged by a mac→windows conversion, and equal labels are a no-op. -/
theorem convert_path_noop_cases_witness :
    convert_path (some "C:/x.mp3".data) (some "mac".data) (some "windows".data) [] =
      some "C:/x.mp3".data ∧
    convert_path (some "/Volumes/USB1/x.mp3".data) (some "mac".data) (some "mac".data) [] =
      some "/Volumes/USB1/x.mp3".data :=
  ⟨(convert_path_noop_cases (some "C:/x.mp3".data) (some "mac".data)
      (some "windows".data) []).2.2.2.2.1 "C:/x.mp3".data rfl rfl rfl (by decide),
   (convert_path_noop_cases (some "/Volumes/USB1/x.mp3".data) (some "mac".data)
      (some "mac".data) []).2.2.2.1 rfl⟩

/-- C9: the registered `REGEXP` function returns `false` whenever the
tested value is `NULL` or the empty string, for every pattern (including
patterns that match the empty string); hence a field-scoped regex filter
rejects such a field, and the free-text regex disjunction rejects a row
all of whose eight searched fields are `NULL` or empty. -/
theorem regexp_rejects_null_and_empty (R : List Char → List Char → Bool)
    (pat : List Char) (v : Option (List Char)) (t : Track)
    (hv : v = none ∨ v = some [])
    (hfields : ∀ f ∈ [t.title, t.artist, t.album, t.filename, t.genre, t.remixer,
      t.label, t.comments], f = none ∨ f = some []) :
    REGEXP R pat v = false ∧
    (pat ≠ [] → passField R true (some pat) v = false) ∧
    freeTextRegex R pat t = false := by
  have hre : ∀ w : Option (List Char), w = none ∨ w = some [] → REGEXP R pat w = false := by
    rintro w (rfl | rfl) <;> simp [REGEXP]
  refine ⟨hre v hv, ?_, ?_⟩
  · intro hpat
    simp [passField, hpat, hre v hv]
  · have h := fun f hf => hre f (hfields f hf)
    simp only [List.mem_cons, List.not_mem_nil, or_false] at h
    simp [freeTextRegex,
      h t.title (by tauto), h t.artist (by tauto), h t.album (by tauto),
      h t.filename (by tauto), h t.genre (by tauto), h t.remixer (by tauto),
      h t.label (by tauto), h t.comments (by tauto)]

/-- Witness for C9: with an oracle that matches everything (in particular
the empty-string-matching pattern `""`), an empty title still never
matches: the helper returns `false` before the oracle is consulted. -/
theorem regexp_rejects_null_and_empty_witness :
    REGEXP (fun _ _ => true) [] (some []) = false ∧
    freeTextRegex (fun _ _ => true) []
      ⟨some [], none, none, none, none, none, none, none, none, none, none, none, 0⟩ = false :=
  ⟨(regexp_rejects_null_and_empty (fun _ _ => true) [] (some [])
      ⟨some [], none, none, none, none, none, none, none, none, none, none, none, 0⟩
      (Or.inr rfl) (by intro f hf; fin_cases hf <;> simp)).1,
   (regexp_rejects_null_and_empty (fun _ _ => true) [] (some [])
      ⟨some [], none, none, none, none, none, none, none, none, none, none, none, 0⟩
      (Or.inr rfl) (by intro f hf; fin_cases hf <;> simp)).2.2⟩

theorem likeMatch_percent_only (s : List Char) : likeMatch ['%'] s = true := by
  have h : likeMatch ['%'] s = s.tails.any (fun t => likeMatch [] t) := by
    simp [likeMatch]
  rw [h, List.any_eq_true]
  exact ⟨[], (List.mem_tails _ _).mpr List.nil_suffix, rfl⟩

theorem likeMatch_append_percent (q : List Char) (hp : '%' ∉ q) (hu : '_' ∉ q) :
    ∀ s, likeMatch (q ++ ['%']) s = true ↔ lowerL q <+: lowerL s := by
  induction q with
  | nil =>
    intro s
    simpa [lowerL] using likeMatch_percent_only s
  | cons c q ih =>
    have hc1 : c ≠ '%' := fun h => hp (h ▸ List.mem_cons_self c q)
    have hc2 : c ≠ '_' := fun h => hu (h ▸ List.mem_cons_self c q)
    have hp' : '%' ∉ q := fun h => hp (List.mem_cons_of_mem c h)
    have hu' : '_' ∉ q := fun h => hu (List.mem_cons_of_mem c h)
    intro s
    cases s with
    | nil => simp [likeMatch, hc1, lowerL]
    | cons d s' =>
      simp only [List.cons_append, likeMatch, if_neg hc1, if_neg hc2,
        Bool.and_eq_true, beq_iff_eq, lowerL, List.map_cons, List.cons_prefix_cons]
      exact and_congr Iff.rfl (by simpa [lowerL] using ih hp' hu' s')

theorem likeMatch_wrapped_iff_contains (q : List Char) (hp : '%' ∉ q) (hu : '_' ∉ q)
    (s : List Char) : likeMatch ('%' :: q ++ ['%']) s = true ↔ lowerL q <:+: lowerL s := by
  have hstep : likeMatch ('%' :: q ++ ['%']) s =
      s.tails.any (fun t => likeMatch (q ++ ['%']) t) := by
    simp [likeMatch]
  rw [hstep, List.any_eq_true]
  constructor
  · rintro ⟨t, ht, hm⟩
    have hsuf : t <:+ s := (List.mem_tails _ _).mp ht
    have hqpre : lowerL q <+: lowerL t := (likeMatch_append_percent q hp hu t).mp hm
    exact ( List.infix_iff_prefix_suffix).mpr ⟨lowerL t, hqpre, List.IsSuffix.map _ hsuf⟩
  · intro hinf
    obtain ⟨t', hqpre, hsuf⟩ := ( List.infix_iff_prefix_suffix).mp hinf
    obtain ⟨u, hu'⟩ := hsuf
    obtain ⟨l₁, l₂, hs, _, hmap₂⟩ := List.map_eq_append_iff.mp hu'.symm
    refine ⟨l₂, (List.mem_tails _ _).mpr ⟨l₁, hs.symm⟩, ?_⟩
    refine (likeMatch_append_percent q hp hu l₂).mpr ?_
    simp only [lowerL] at hqpre ⊢
    rw [hmap₂]
    exact hqpre

theorem likeContains_eq_fieldContainsCI (v : Option (List Char)) (q : List Char)
    (hp : '%' ∉ q) (hu : '_' ∉ q) : likeContains v q = fieldContainsCI v q := by
  cases v with
  | none => rfl
  | some s =>
    have hiff := likeMatch_wrapped_iff_contains q hp hu s
    simp only [likeContains, fieldContainsCI]
    cases hb : likeMatch ('%' :: q ++ ['%']) s with
    | false =>
      cases hd : decide (lowerL q <:+: lowerL s) with
      | false => rfl
      | true =>
        rw [hb] at hiff
        exact absurd (hiff.mpr (of_decide_eq_true hd)) (by simp)
    | true =>
      cases hd : decide (lowerL q <:+: lowerL s) with
      | false => exact absurd (hiff.mp hb) (of_decide_eq_false hd)
      | true => rfl

theorem searchWhere_query_only (R : List Char → List Char → Bool) (b : SearchArgs)
    (q : List Char) (t : Track) :
    searchWhere R (applyFilter (clearArgs b) (SFilter.query q)) t =
      (if q = [] then true else
        if b.regex then freeTextRegex R q t else freeTextLike q t) := by
  simp [searchWhere, applyFilter, clearArgs, passQuery, passField, passSource,
    passFormat, passBpmMin, passBpmMax, passInRB, passNotInRB]

/-- C3 (amended): with only a non-empty free-text query supplied, a row
matches in the default substring mode — for a query containing no SQL
`LIKE` wildcard (`%`, `_`) — iff at least one of the eight fields title,
artist, album, filename, genre, remixer, label, comments contains the
query case-insensitively; and when regex mode is requested the match is
exactly the `REGEXP` disjunction over the same eight fields, whatever the
field-scoped regex flag is — never the substring semantics. -/
theorem free_text_query_semantics (R : List Char → List Char → Bool)
    (b : SearchArgs) (q : List Char) (t : Track) (hq : q ≠ []) :
    (b.regex = false → '%' ∉ q → '_' ∉ q →
      (searchWhere R (applyFilter (clearArgs b) (SFilter.query q)) t = true ↔
        anyFieldContainsCI t q = true)) ∧
    (b.regex = true →
      searchWhere R (applyFilter (clearArgs b) (SFilter.query q)) t = freeTextRegex R q t) := by
  constructor
  · intro hreg hp hu
    rw [searchWhere_query_only, if_neg hq, hreg]
    simp only [Bool.false_eq_true, if_false, freeTextLike, anyFieldContainsCI,
      likeContains_eq_fieldContainsCI _ _ hp hu]
  · intro hreg
    rw [searchWhere_query_only, if_neg hq, hreg, if_pos rfl]

/-- Witness for the amended C3: searching for `"BET"` (wildcard-free)
matches a track titled `"abc"` in none of its fields, and under an
all-rejecting regex oracle a regex-mode query matches nothing. -/
theorem free_text_query_semantics_witness :
    (searchWhere neverMatch (applyFilter (clearArgs baseArgs) (SFilter.query "BET".data))
        trackABC = true ↔ anyFieldContainsCI trackABC "BET".data = true) ∧
    searchWhere neverMatch
        (applyFilter (clearArgs { baseArgs with regex := true }) (SFilter.query "abc".data))
        trackABC = freeTextRegex neverMatch "abc".data trackABC :=
  ⟨(free_text_query_semantics neverMatch baseArgs "BET".data trackABC (by decide)).1
      rfl (by decide) (by decide),
   (free_text_query_semantics neverMatch { baseArgs with regex := true } "abc".data trackABC
      (by decide)).2 rfl⟩

/-- Counterexample to C3 as stated: the free-text query is interpolated
into the `LIKE` pattern unescaped, so the query `"a_c"` (whose `_` is a
single-character wildcard) matches a track titled `"abc"` even though no
field contains the string `"a_c"` case-insensitively. -/
theorem free_text_query_claim_counterexample :
    searchWhere neverMatch (applyFilter (clearArgs baseArgs) (SFilter.query "a_c".data))
        trackABC = true ∧
    anyFieldContainsCI trackABC "a_c".data = false := by
  constructor <;> decide

theorem mem_searchResults_iff (R : List Char → List Char → Bool) (a : SearchArgs)
    (rows : List Track) (t : Track) (hlim : rows.length ≤ a.limit) :
    t ∈ searchResults R a rows ↔ t ∈ rows ∧ searchWhere R a t = true := by
  unfold searchResults
  rw [List.take_of_length_le
    (by rw [List.length_insertionSort]; exact le_trans (List.length_filter_le _ _) hlim)]
  rw [List.mem_insertionSort, List.mem_filter]

theorem not_mem_searchResults (R : List Char → List Char → Bool) (a : SearchArgs)
    (rows : List Track) (t : Track) (h : searchWhere R a t = false) :
    t ∉ searchResults R a rows := by
  intro hmem
  unfold searchResults at hmem
  have h1 := List.mem_of_mem_take hmem
  rw [List.mem_insertionSort, List.mem_filter] at h1
  rw [h1.2] at h
  cases h

theorem searchWhere_bpm_only (R : List Char → List Char → Bool) (a : SearchArgs)
    (lo hi : Rat) (t : Track) :
    searchWhere R (applyFilter (applyFilter (clearArgs a) (SFilter.bpmMin lo))
        (SFilter.bpmMax hi)) t = (bpmGe t.bpm lo && bpmLe t.bpm hi) := by
  simp [searchWhere, applyFilter, clearArgs, passQuery, passField, passSource,
    passFormat, passBpmMin, passBpmMax, passInRB, passNotInRB]

/-- C8: the tempo filters compare inclusively (`bpm >= min`, `bpm <= max`),
are independently optional and combine to a closed range, and a row with
a null tempo is excluded from the result whenever either bound is
supplied. -/
theorem bpm_range_semantics (R : List Char → List Char → Bool) (a : SearchArgs)
    (rows : List Track) (t : Track) :
    (∀ m, a.bpm_min = some m → searchWhere R a t = true →
      ∃ x, t.bpm = some x ∧ m ≤ x) ∧
    (∀ m, a.bpm_max = some m → searchWhere R a t = true →
      ∃ x, t.bpm = some x ∧ x ≤ m) ∧
    (∀ lo hi, searchWhere R (applyFilter (applyFilter (clearArgs a) (SFilter.bpmMin lo))
        (SFilter.bpmMax hi)) t = true ↔ ∃ x, t.bpm = some x ∧ lo ≤ x ∧ x ≤ hi) ∧
    (t.bpm = none → (a.bpm_min ≠ none ∨ a.bpm_max ≠ none) →
      t ∉ searchResults R a rows) := by
  refine ⟨?_, ?_, ?_, ?_⟩
  · intro m hm h
    simp only [searchWhere, Bool.and_eq_true] at h
    have hp := h.1.1.1.2
    rw [passBpmMin, hm] at hp
    cases hx : t.bpm with
    | none => rw [hx] at hp; cases hp
    | some x =>
      rw [hx] at hp
      exact ⟨x, rfl, by simpa [bpmGe] using hp⟩
  · intro m hm h
    simp only [searchWhere, Bool.and_eq_true] at h
    have hp := h.1.1.2
    rw [passBpmMax, hm] at hp
    cases hx : t.bpm with
    | none => rw [hx] at hp; cases hp
    | some x =>
      rw [hx] at hp
      exact ⟨x, rfl, by simpa [bpmLe] using hp⟩
  · intro lo hi
    rw [searchWhere_bpm_only]
    cases hx : t.bpm with
    | none => simp [bpmGe, bpmLe]
    | some x => simp [bpmGe, bpmLe]
  · intro hb hne
    refine not_mem_searchResults R a rows t ?_
    rcases hne with hne | hne
    · rcases Option.ne_none_iff_exists'.mp hne with ⟨m, hm⟩
      simp [searchWhere, passBpmMin, hm, bpmGe, hb]
    · rcases Option.ne_none_iff_exists'.mp hne with ⟨m, hm⟩
      simp [searchWhere, passBpmMax, hm, bpmLe, hb]

/-- Witness for C8 (the spec's example): with bounds 125 and 130, the
128-bpm Bicep track satisfies the closed-range condition, the boundary
value 125 itself is accepted on a 125-bpm track, and a null-tempo track
is excluded once a minimum bound is supplied. -/
theorem bpm_range_semantics_witness :
    searchWhere neverMatch (applyFilter (applyFilter (clearArgs baseArgs)
      (SFilter.bpmMin 125)) (SFilter.bpmMax 130)) bicep1 = true ∧
    searchWhere neverMatch (applyFilter (applyFilter (clearArgs baseArgs)
      (SFilter.bpmMin 125)) (SFilter.bpmMax 130)) hopkins = false ∧
    trackABC ∉ searchResults neverMatch (applyFilter baseArgs (SFilter.bpmMin 125))
      [trackABC] :=
  ⟨((bpm_range_semantics neverMatch baseArgs [] bicep1).2.2.1 125 130).mpr
      ⟨128, rfl, by decide, by decide⟩,
   by
    cases hb : searchWhere neverMatch (applyFilter (applyFilter (clearArgs baseArgs)
        (SFilter.bpmMin 125)) (SFilter.bpmMax 130)) hopkins with
    | false => rfl
    | true =>
      obtain ⟨x, hx, hlox, hxhi⟩ :=
        ((bpm_range_semantics neverMatch baseArgs [] hopkins).2.2.1 125 130).mp hb
      obtain rfl : (110 : Rat) = x := by
        have : some (110 : Rat) = some x := hx ▸ rfl
        exact Option.some.inj this
      exact absurd hlox (by decide),
   (bpm_range_semantics neverMatch (applyFilter baseArgs (SFilter.bpmMin 125))
      [trackABC] trackABC).2.2.2 rfl (Or.inl (by decide))⟩

theorem pySplit_ne_nil (sep : Char) (l : List Char) : pySplit sep l ≠ [] := by
  cases l with
  | nil => simp [pySplit]
  | cons c cs =>
    simp only [pySplit]
    cases pySplit sep cs with
    | nil => simp
    | cons h t =>
      by_cases hc : c = sep <;> simp [hc]

theorem pySplit_append_sep (sep : Char) (a b : List Char) (ha : sep ∉ a) :
    pySplit sep (a ++ sep :: b) = a :: pySplit sep b := by
  induction a with
  | nil =>
    show pySplit sep (sep :: b) = [] :: pySplit sep b
    simp only [pySplit]
    cases h : pySplit sep b with
    | nil => exact absurd h (pySplit_ne_nil sep b)
    | cons hh tt => simp
  | cons c a ih =>
    have hc : c ≠ sep := fun h => ha (h ▸ List.mem_cons_self c a)
    have ha' : sep ∉ a := fun h => ha (List.mem_cons_of_mem c h)
    show pySplit sep (c :: (a ++ sep :: b)) = (c :: a) :: pySplit sep b
    simp only [pySplit, ih ha']
    simp [hc]

theorem pySplit_no_sep (sep : Char) (l : List Char) (h : sep ∉ l) :
    pySplit sep l = [l] := by
  induction l with
  | nil => rfl
  | cons c cs ih =>
    have hc : c ≠ sep := fun he => h (he ▸ List.mem_cons_self c cs)
    have h' : sep ∉ cs := fun he => h (List.mem_cons_of_mem c he)
    simp only [pySplit, ih h']
    simp [hc]

theorem pyJoin_pySplit (a b : Char) (l : List Char) :
    pyJoin b (pySplit a l) = l.map (fun c => if c = a then b else c) := by
  induction l with
  | nil => rfl
  | cons c cs ih =>
    cases hsplit : pySplit a cs with
    | nil => exact absurd hsplit (pySplit_ne_nil a cs)
    | cons h t =>
      rw [hsplit] at ih
      by_cases hc : c = a
      · subst hc
        simp only [pySplit, hsplit, if_pos rfl, List.map_cons, if_pos rfl]
        rw [← ih]
        rfl
      · simp only [pySplit, hsplit, if_neg hc, List.map_cons, if_neg hc]
        cases t with
        | nil =>
          simp only [pyJoin] at ih ⊢
          rw [ih]
        | cons t0 ts =>
          simp only [pyJoin] at ih ⊢
          rw [← ih]
          rfl

theorem mac_to_windows_app (v r : List Char) (m : List (List Char × List Char))
    (hs : '/' ∉ v) :
    mac_to_windows (macRoot ++ v ++ '/' :: r) m =
      driveLetter v m ++ ':' :: '\\' :: r.map (fun c => if c = '/' then '\\' else c) := by
  have hpre : macRoot.isPrefixOf (macRoot ++ v ++ '/' :: r) = true :=
    ( List.isPrefixOf_iff_prefix).mpr ⟨v ++ '/' :: r, rfl⟩
  have h0 : macRoot ++ v ++ '/' :: r =
      [] ++ '/' :: ("Volumes".data ++ '/' :: (v ++ '/' :: r)) := rfl
  have hsplit : pySplit '/' (macRoot ++ v ++ '/' :: r) =
      [] :: "Volumes".data :: v :: pySplit '/' r := by
    rw [h0, pySplit_append_sep '/' [] _ (by simp),
        pySplit_append_sep '/' "Volumes".data _ (by decide),
        pySplit_append_sep '/' v _ hs]
  simp only [mac_to_windows, hpre, hsplit, List.length_cons, List.getD, List.get?,
    List.drop, pyJoin_pySplit, not_true, if_false, ite_false]
  rw [if_neg (by omega)]
  cases r with
  | nil => simp
  | cons c cs =>
    rw [if_neg (by simp)]
    simp [List.getD, List.get?]

theorem mac_to_windows_bare (v : List Char) (m : List (List Char × List Char))
    (hs : '/' ∉ v) :
    mac_to_windows (macRoot ++ v) m = driveLetter v m ++ [':', '\\'] := by
  have hpre : macRoot.isPrefixOf (macRoot ++ v) = true :=
    ( List.isPrefixOf_iff_prefix).mpr ⟨v, rfl⟩
  have h0 : macRoot ++ v = [] ++ '/' :: ("Volumes".data ++ '/' :: v) := rfl
  have hsplit : pySplit '/' (macRoot ++ v) = [] :: "Volumes".data :: [v] := by
    rw [h0, pySplit_append_sep '/' [] _ (by simp),
        pySplit_append_sep '/' "Volumes".data _ (by decide),
        pySplit_no_sep '/' v hs]
  simp only [mac_to_windows, hpre, hsplit, List.length_cons, List.getD, List.get?,
    List.drop, not_true, if_false, ite_false]
  rw [if_neg (by omega)]
  simp [List.getD, List.get?, pyJoin]

/-- C5: A→B conversion of a style-A path splits it at the root marker
into volume name and remainder, takes the drive letter from the mapping
when the volume is present and otherwise the upper-cased first character
of the (non-empty) volume name, rewrites the remainder's separators from
`/` to `\`, and maps a path with no remainder to `<LETTER>:\`. -/
theorem mac_to_windows_semantics (v r : List Char) (m : List (List Char × List Char))
    (hv : v ≠ []) (hs : '/' ∉ v) :
    (∀ d, List.lookup v m = some d →
      mac_to_windows (macRoot ++ v ++ '/' :: r) m =
        d ++ ':' :: '\\' :: r.map (fun c => if c = '/' then '\\' else c) ∧
      mac_to_windows (macRoot ++ v) m = d ++ [':', '\\']) ∧
    (List.lookup v m = none →
      mac_to_windows (macRoot ++ v ++ '/' :: r) m =
        v.headI.toUpper :: ':' :: '\\' :: r.map (fun c => if c = '/' then '\\' else c) ∧
      mac_to_windows (macRoot ++ v) m = [v.headI.toUpper, ':', '\\']) := by
  constructor
  · intro d hd
    have hdl : driveLetter v m = d := by simp [driveLetter, hd]
    rw [mac_to_windows_app v r m hs, mac_to_windows_bare v m hs, hdl]
    exact ⟨rfl, rfl⟩
  · intro hd
    cases v with
    | nil => exact absurd rfl hv
    | cons c v' =>
      have hdl : driveLetter (c :: v') m = [c.toUpper] := by simp [driveLetter, hd]
      rw [mac_to_windows_app (c :: v') r m hs, mac_to_windows_bare (c :: v') m hs, hdl]
      exact ⟨rfl, rfl⟩

/-- Witness for C5 (the spec's example plus the fallback rule):
`/Volumes/USB1/Music/song.mp3` with mapping `{USB1→E}` becomes
`E:\Music\song.mp3`; without a mapping entry, `ExternalDrive` falls back
to the letter `E`, and a path with no remainder becomes `E:\`. -/
theorem mac_to_windows_semantics_witness :
    mac_to_windows (macRoot ++ "USB1".data ++ '/' :: "Music/song.mp3".data)
      [("USB1".data, "E".data)] = "E:\\Music\\song.mp3".data ∧
    mac_to_windows (macRoot ++ "ExternalDrive".data) [] = "E:\\".data :=
  ⟨(((mac_to_windows_semantics "USB1".data "Music/song.mp3".data
      [("USB1".data, "E".data)] (by decide) (by decide)).1 "E".data rfl).1).trans (by decide),
   (((mac_to_windows_semantics "ExternalDrive".data [] []
      (by decide) (by decide)).2 rfl).2).trans (by decide)⟩

theorem windows_to_mac_app (dc : Char) (r' : List Char)
    (m : List (List Char × List Char)) (hr' : r' ≠ []) :
    windows_to_mac (dc :: ':' :: '\\' :: r') m =
      macRoot ++ reverseVolume dc.toUpper m ++
        '/' :: r'.map (fun c => if c = '\\' then '/' else c) := by
  have hinf : [':', '\\'] <:+: dc :: ':' :: '\\' :: r' := ⟨[dc], r', rfl⟩
  have hlen : 3 < (dc :: ':' :: '\\' :: r').length := by
    cases r' with
    | nil => exact absurd rfl hr'
    | cons a b => simp only [List.length_cons]; omega
  simp only [windows_to_mac, not_not_intro hinf, if_false, List.headI,
    if_pos hlen, List.drop]
  rw [if_neg (by simpa using hr')]

theorem mem_of_lookup_eq_some {β : Type} (k : List Char) (m : List (List Char × β))
    (d : β) (h : List.lookup k m = some d) : (k, d) ∈ m := by
  induction m with
  | nil => cases h
  | cons p m ih =>
    rcases p with ⟨a, b⟩
    rw [List.lookup_cons] at h
    by_cases hk : (k == a) = true
    · rw [hk] at h
      obtain rfl : b = d := Option.some.inj h
      obtain rfl : k = a := eq_of_beq hk
      exact List.mem_cons_self _ _
    · rw [Bool.eq_false_iff.mpr hk] at h
      exact List.mem_cons_of_mem _ (ih h)

theorem reverseVolume_eq (v : List Char) (dc : Char) (m : List (List Char × List Char))
    (hv : v ≠ []) (hlook : List.lookup v m = some [dc])
    (hnodup : (m.map (fun p => p.2.map Char.toUpper)).Nodup) :
    reverseVolume dc.toUpper m = v := by
  have hmem : (v, [dc]) ∈ m := mem_of_lookup_eq_some v m [dc] hlook
  cases hfind : m.find? (fun p => p.2.map Char.toUpper == [dc.toUpper]) with
  | none =>
    have := List.find?_eq_none.mp hfind _ hmem
    simp at this
  | some q =>
    have hq2 : q ∈ m := List.mem_of_find?_eq_some hfind
    have hq1 : q.2.map Char.toUpper = [dc.toUpper] := by
      simpa using List.find?_some hfind
    have hq : q = (v, [dc]) :=
      List.inj_on_of_nodup_map hnodup hq2 hmem (by simp [hq1])
    simp [reverseVolume, hfind, hq, hv]

theorem map_slash_back_cancel (r : List Char) (h : '\\' ∉ r) :
    (r.map (fun c => if c = '/' then '\\' else c)).map
      (fun c => if c = '\\' then '/' else c) = r := by
  rw [List.map_map]
  have hcg : ∀ c ∈ r, ((fun c => if c = '\\' then '/' else c) ∘
      fun c => if c = '/' then '\\' else c) c = id c := by
    intro c hc
    have h2 : c ≠ '\\' := fun he => h (he ▸ hc)
    by_cases h1 : c = '/'
    · simp [h1, Function.comp]
    · simp [Function.comp, h1, h2]
  rw [List.map_congr_left hcg, List.map_id]

/-- C2 (amended): converting a style-A path `/Volumes/<v>/<r>` to style B
and back with the same mapping returns the original path, provided the
mapping sends `<v>` to a single drive letter, the upper-cased drive
letters of the mapping are pairwise distinct (bijectivity up to letter
case), the volume name is non-empty, and the remainder is non-empty and
contains no backslash. -/
theorem path_conversion_roundtrip (v r : List Char) (dc : Char)
    (m : List (List Char × List Char)) (hv : v ≠ []) (hsv : '/' ∉ v)
    (hrb : '\\' ∉ r) (hr : r ≠ [])
    (hlook : List.lookup v m = some [dc])
    (hnodup : (m.map (fun p => p.2.map Char.toUpper)).Nodup) :
    windows_to_mac (mac_to_windows (macRoot ++ v ++ '/' :: r) m) m =
      macRoot ++ v ++ '/' :: r := by
  have hdl : driveLetter v m = [dc] := by simp [driveLetter, hlook]
  rw [mac_to_windows_app v r m hsv, hdl]
  have hr' : r.map (fun c => if c = '/' then '\\' else c) ≠ [] := by
    cases r with
    | nil => exact absurd rfl hr
    | cons a b => simp
  have hw : [dc] ++ ':' :: '\\' :: r.map (fun c => if c = '/' then '\\' else c) =
      dc :: ':' :: '\\' :: r.map (fun c => if c = '/' then '\\' else c) := rfl
  rw [hw, windows_to_mac_app dc _ m hr', reverseVolume_eq v dc m hv hlook hnodup,
    map_slash_back_cancel r hrb]

/-- Witness for the amended C2 (the spec's example):
`/Volumes/USB1/Music/song.mp3` with mapping `{USB1→E}` round-trips. -/
theorem path_conversion_roundtrip_witness :
    windows_to_mac (mac_to_windows (macRoot ++ "USB1".data ++ '/' :: "Music/song.mp3".data)
        [("USB1".data, "E".data)]) [("USB1".data, "E".data)] =
      macRoot ++ "USB1".data ++ '/' :: "Music/song.mp3".data :=
  path_conversion_roundtrip "USB1".data "Music/song.mp3".data 'E'
    [("USB1".data, "E".data)] (by decide) (by decide) (by decide) (by decide)
    rfl (by decide)

/-- Counterexample to C2 as stated: the remainder may itself contain a
backslash, which A→B conversion leaves in place and B→A conversion then
rewrites to a forward slash: `/Volumes/USB1/a\b` with the bijective
mapping `{USB1→E}` comes back as `/Volumes/USB1/a/b`, not the original. -/
theorem path_conversion_roundtrip_counterexample :
    windows_to_mac (mac_to_windows "/Volumes/USB1/a\\b".data [("USB1".data, "E".data)])
        [("USB1".data, "E".data)] = "/Volumes/USB1/a/b".data ∧
    "/Volumes/USB1/a/b".data ≠ "/Volumes/USB1/a\\b".data := by
  constructor <;> decide

theorem applyFilter_limit (a : SearchArgs) (f : SFilter) :
    (applyFilter a f).limit = a.limit := by
  cases f <;> rfl

theorem searchWhere_clearArgs (R : List Char → List Char → Bool) (a : SearchArgs)
    (t : Track) : searchWhere R (clearArgs a) t = true := by
  simp [searchWhere, clearArgs, passQuery, passField, passSource, passFormat,
    passBpmMin, passBpmMax, passInRB, passNotInRB]

set_option maxHeartbeats 1600000 in
theorem searchWhere_two_filters (R : List Char → List Char → Bool) (a : SearchArgs)
    (f g : SFilter) (t : Track) (hfg : filterField f ≠ filterField g) :
    searchWhere R (applyFilter (applyFilter (clearArgs a) f) g) t =
      (searchWhere R (applyFilter (clearArgs a) f) t &&
       searchWhere R (applyFilter (clearArgs a) g) t) := by
  cases f <;> cases g <;>
    simp_all [filterField, searchWhere, applyFilter, clearArgs, passQuery, passField,
      passSource, passFormat, passBpmMin, passBpmMax, passInRB, passNotInRB,
      Bool.and_comm, Bool.and_left_comm, Bool.and_assoc]

/-- C1 (amended): whenever the result cap does not truncate
(`rows.length ≤ limit`), the result set of any filtered search is a
subset of the unfiltered result set of the same invocation, and applying
two filters of different argument slots together yields exactly the
intersection of applying each alone. -/
theorem search_subset_and_intersection (R : List Char → List Char → Bool)
    (a : SearchArgs) (f g : SFilter) (rows : List Track) (t : Track)
    (hlim : rows.length ≤ a.limit) (hfg : filterField f ≠ filterField g) :
    (t ∈ searchResults R a rows → t ∈ searchResults R (clearArgs a) rows) ∧
    (t ∈ searchResults R (applyFilter (applyFilter (clearArgs a) f) g) rows ↔
      t ∈ searchResults R (applyFilter (clearArgs a) f) rows ∧
      t ∈ searchResults R (applyFilter (clearArgs a) g) rows) := by
  have hclim : (clearArgs a).limit = a.limit := rfl
  constructor
  · intro h
    rw [mem_searchResults_iff R a rows t hlim] at h
    rw [mem_searchResults_iff R (clearArgs a) rows t (hclim ▸ hlim)]
    exact ⟨h.1, searchWhere_clearArgs R a t⟩
  · rw [mem_searchResults_iff R _ rows t
        (by rw [applyFilter_limit, applyFilter_limit, hclim]; exact hlim),
      mem_searchResults_iff R _ rows t (by rw [applyFilter_limit, hclim]; exact hlim),
      mem_searchResults_iff R _ rows t (by rw [applyFilter_limit, hclim]; exact hlim),
      searchWhere_two_filters R a f g t hfg]
    simp only [Bool.and_eq_true]
    tauto

/-- Witness for the amended C1: over the spec's three example tracks with
the default cap of 100, filtering by artist `Bicep` and minimum tempo 120
together contains exactly what both single-filter searches contain; the
128-bpm Bicep track is in the combined result, and every filtered result
is in the unfiltered one. -/
theorem search_subset_and_intersection_witness :
    bicep1 ∈ searchResults neverMatch (applyFilter (applyFilter (clearArgs baseArgs)
      (SFilter.artist "Bicep".data)) (SFilter.bpmMin 120)) [bicep1, bicep2, hopkins] ∧
    bicep1 ∈ searchResults neverMatch (clearArgs baseArgs) [bicep1, bicep2, hopkins] :=
  ⟨(search_subset_and_intersection neverMatch baseArgs (SFilter.artist "Bicep".data)
      (SFilter.bpmMin 120) [bicep1, bicep2, hopkins] bicep1 (by decide) (by decide)).2.mpr
    ⟨by decide, by decide⟩,
   (search_subset_and_intersection neverMatch baseArgs (SFilter.artist "Bicep".data)
      (SFilter.bpmMin 120) [bicep1, bicep2, hopkins] bicep1 (by decide) (by decide)).1
    (by decide)⟩

/-- Counterexample to C1 as stated: the builder always appends
`LIMIT args.limit` to the ordered result, so with a cap of 1 over two
tracks, the artist filter `Beta` returns the Beta track while the
unfiltered search returns only the Alpha track (which sorts first) — the
filtered result set is not a subset of the unfiltered one. -/
theorem search_subset_claim_counterexample :
    trackBeta ∈ searchResults neverMatch
      (applyFilter { baseArgs with limit := 1 } (SFilter.artist "Beta".data))
      [trackAlpha, trackBeta] ∧
    trackBeta ∉ searchResults neverMatch { baseArgs with limit := 1 }
      [trackAlpha, trackBeta] := by
  constructor <;> decide
